import Mathlib

/-!
Verification of the Local Business Booster backend (`main.py`).

The HTTP fetch and the BeautifulSoup parse performed by `scan_site` are
external library effects; they are modelled by an oracle
`net : String → Except String Soup` that, for each url, either raises
(returns the message string of the exception) or yields the extracted
components of the parsed document (`Soup`).  Everything downstream of that oracle is
embedded directly from the source.  Python strings are Lean `String`s;
`str.lower` is modelled by ASCII `Char.toLower` (`pyLower`), `str.strip`
by whitespace trimming (`pyStrip`), `str.count` by the non-overlapping
left-to-right substring count (`pyCount`), float arithmetic by exact `ℚ`,
and the Python `round` (half to even) by `pyRound`.
-/

/-- Python `str.lower()` : lower-case every character (ASCII, per `Char.toLower`). -/
def pyLower (s : String) : String := ⟨s.data.map Char.toLower⟩

/-- Python `str.strip()` : drop whitespace from both ends. -/
def pyStrip (s : String) : String :=
  ⟨((s.data.dropWhile Char.isWhitespace).reverse.dropWhile Char.isWhitespace).reverse⟩

/-- Boolean "`p` is a prefix of `l`" on character lists. -/
def isPre : List Char → List Char → Bool
  | [], _ => true
  | _ :: _, [] => false
  | a :: as, b :: bs => a == b && isPre as bs

/-- Python `pat in text` : `pat` occurs as a contiguous substring of `text`. -/
def strHas (pat : List Char) : List Char → Bool
  | [] => pat.isEmpty
  | c :: rest => isPre pat (c :: rest) || strHas pat rest

/-- Non-overlapping left-to-right count of `pat` in the text, as Python
`text.count(pat)` computes it for a non-empty `pat`.  Structural recursion on
a fuel argument; every recursive call strictly shortens the text (for
non-empty `pat` the match branch drops the whole match), so fuel
`text.length` always suffices. -/
def pyCountFuel (pat : List Char) : Nat → List Char → Nat
  | _, [] => 0
  | 0, _ :: _ => 0
  | fuel + 1, c :: rest =>
    if isPre pat (c :: rest) then 1 + pyCountFuel pat fuel (rest.drop (pat.length - 1))
    else pyCountFuel pat fuel rest

/-- Python `text.count(pat)` (callers guard `pat ≠ ""`). -/
def pyCount (text pat : String) : Nat := pyCountFuel pat.data text.data.length text.data

/-- Python truthiness filter for an optional string: `None` and `""` are falsy. -/
def pyTruthy (o : Option String) : Option String :=
  match o with
  | some s => if s = "" then none else some s
  | none => none

/-- Python `round` on an exact rational: round half to even. -/
def pyRound (q : ℚ) : ℤ :=
  let f := q.floor
  let r := q - (f : ℚ)
  if r < 1 / 2 then f
  else if 1 / 2 < r then f + 1
  else if f % 2 = 0 then f else f + 1

/-- The components `scan_site` reads off the parsed document (`soup`):
`soup.title.string` when a title tag with a string is present, the
`content` of the `description` / `og:description` meta tags when present,
and `soup.get_text(separator=" ", strip=True)` (before lower-casing). -/
structure Soup where
  titleString : Option String
  metaDescContent : Option String
  ogDescContent : Option String
  text : String
deriving Repr, DecidableEq

/-- The fetch+parse oracle: for each url, either the exception message or the
parsed page. -/
abbrev Net := String → Except String Soup

/-- The `CompetitorResult` pydantic model, with its field defaults. -/
structure CompetitorResult where
  url : String
  title : Option String := none
  meta_description : Option String := none
  has_testimonials : Bool := false
  has_gallery : Bool := false
  has_faq : Bool := false
  has_clear_cta : Bool := false
  service_mentions : Nat := 0
  error : Option String := none
deriving Repr, DecidableEq

/-- The `AnalyzeRequest` pydantic model; `website_url` is `Optional[str] = None`. -/
structure AnalyzeRequest where
  business_name : String
  location : String
  industry : String
  main_service : String
  website_url : Option String := none
  competitor_urls : List String
deriving Repr, DecidableEq

/-- The `AnalyzeResponse` pydantic model. -/
structure AnalyzeResponse where
  competitors : List CompetitorResult
  your_site : Option CompetitorResult := none
  recommendations : List String
deriving Repr, DecidableEq

def testimonialKeywords : List String :=
  ["testimonial", "testimonials", "what our customers say", "reviews", "review"]

def galleryKeywords : List String :=
  ["gallery", "our work", "portfolio", "before and after"]

def faqKeywords : List String := ["faq", "frequently asked questions"]

def ctaKeywords : List String :=
  ["call now", "get a quote", "get a free quote", "free estimate",
   "book now", "schedule now", "request a quote", "request a call"]

/-- Embedding of `scan_site(client, url, main_service_phrase)` : on any exception the
`except` branch returns `CompetitorResult(url=url, error=str(e))`; on success
it extracts title, meta description, the four feature booleans and the
mention count from the parsed page. -/
def scan_site (net : Net) (url : String) (main_service_phrase : String) :
    CompetitorResult :=
  match net url with
  | Except.error e => { url := url, error := some e }
  | Except.ok soup =>
    let title := (pyTruthy soup.titleString).map pyStrip
    let meta_description :=
      match pyTruthy soup.metaDescContent with
      | some c => some (pyStrip c)
      | none => (pyTruthy soup.ogDescContent).map pyStrip
    let text := pyLower soup.text
    let has_any := fun (keywords : List String) =>
      keywords.any (fun k => strHas k.data text.data)
    let has_testimonials := has_any testimonialKeywords
    let has_gallery := has_any galleryKeywords
    let has_faq := has_any faqKeywords
    let has_clear_cta := has_any ctaKeywords
    let service_mentions :=
      if main_service_phrase = "" then 0 else pyCount text main_service_phrase
    { url := url
      title := title
      meta_description := meta_description
      has_testimonials := has_testimonials
      has_gallery := has_gallery
      has_faq := has_faq
      has_clear_cta := has_clear_cta
      service_mentions := service_mentions
      error := none }

/-- A network oracle on which every fetch raises. -/
def errNet : Net := fun _ => Except.error "timeout"

/- The recommendation strings of `analyze_competitors` (f-strings are written
as explicit concatenations; `\x27` is the apostrophe). -/

def belowAvgMsg (ms : String) (n : ℤ) : String :=
  "Your homepage mentions \x27" ++
    (ms ++ ("\x27 less often than competitors. Aim for at least " ++
      (toString n ++ " mentions across headlines and body text.")))

def onParMsg (ms : String) : String :=
  "You\x27re using \x27" ++
    (ms ++ "\x27 as frequently as top competitors. Keep that keyword focus in your main sections.")

def usePhraseMsg (ms : String) (n : ℤ) : String :=
  "Use the phrase \x27" ++
    (ms ++ ("\x27 at least " ++
      (toString n ++ " times across your homepage (headlines + body).")))

def testimonialAddMsg : String :=
  "Your competitors highlight testimonials or reviews, but your site does not. Add a testimonials section with real names and locations."

def testimonialGenMsg : String :=
  "Most competitors highlight testimonials or reviews. Make sure your testimonials section is easy to find."

def faqAddMsg : String :=
  "Competitors are answering questions on-site with an FAQ, but your site is missing one. Add an FAQ section for pricing, service areas, and what to expect."

def faqGenMsg : String :=
  "Competitors are answering questions with an FAQ. Make sure your FAQ covers the top objections and concerns."

def galleryAddMsg : String :=
  "Competitors show their work with galleries or before/after photos, but your site doesn\x27t. Add a simple gallery to build trust."

def galleryGenMsg : String :=
  "Most competitors show their work visually. Keep your gallery updated with recent projects."

def ctaAddMsg : String :=
  "Competitors use strong \x27Call Now\x27 or \x27Get a Quote\x27 buttons above the fold. Add a clear call-to-action button near the top of your homepage."

def ctaGenMsg : String :=
  "Competitors make it easy to contact or request a quote. Make sure your CTAs stand out and are above the fold."

def genericFallbackMsg : String :=
  "Make sure your homepage clearly states what you do, where you work, and how people can contact you within the first screen."

def closingMsg : String :=
  "A simple one-page layout works great: hero (headline + CTA), services, testimonials, gallery, FAQ, and a final \x27Book Now\x27 section."

/-- Python `valid_competitors = [r for r in results if r.error is None]`. -/
def validOf (results : List CompetitorResult) : List CompetitorResult :=
  results.filter (fun r => r.error.isNone)

/-- Python `avg_mentions = sum(r.service_mentions for r in valid) / max(len(valid), 1)`
(float division modelled exactly on `ℚ`). -/
def avgOf (valid : List CompetitorResult) : ℚ :=
  (((valid.map (fun r => r.service_mentions)).sum : ℕ) : ℚ) /
    ((max valid.length 1 : ℕ) : ℚ)

/-- Python `int(max(3, round(avg_mentions)))`. -/
def recN (avg : ℚ) : ℤ := max 3 (pyRound avg)

/-- Truthiness of `your_site_result and your_site_result.error is None`. -/
def ownOk : Option CompetitorResult → Bool
  | some y => y.error.isNone
  | none => false

/-- Truthiness of
`your_site_result and your_site_result.error is None and not your_site_result.has_X`. -/
def ownLacks (your : Option CompetitorResult) (has : CompetitorResult → Bool) : Bool :=
  match your with
  | some y => y.error.isNone && !(has y)
  | none => false

/-- Lines 181–194: the keyword-usage recommendation block. -/
def keywordRecs (ms : String) (your : Option CompetitorResult) (avg : ℚ) :
    List String :=
  if 0 < avg then
    match your with
    | some y =>
      if y.error.isNone then
        if (y.service_mentions : ℚ) < avg then [belowAvgMsg ms (recN avg)]
        else [onParMsg ms]
      else [usePhraseMsg ms (recN avg)]
    | none => [usePhraseMsg ms (recN avg)]
  else []

/-- One of the four `if X_count >= half_or_more:` feature blocks
(lines 203–241); each block appends the "add it" variant exactly when the own
site was scanned, has no error, and lacks the feature, else the generic
variant. -/
def featureBlock (cnt half : ℕ) (your : Option CompetitorResult)
    (has : CompetitorResult → Bool) (addMsg genMsg : String) : List String :=
  if half ≤ cnt then
    if ownLacks your has then [addMsg] else [genMsg]
  else []

/-- Python `sum(1 for r in valid_competitors if r.has_X)`. -/
def countFeature (valid : List CompetitorResult) (has : CompetitorResult → Bool) : ℕ :=
  (valid.filter has).length

/-- Lines 171–241: everything appended to `recommendations` before the
fallback/closing handling — empty when there is no valid competitor. -/
def recsBase (ms : String) (results : List CompetitorResult)
    (your : Option CompetitorResult) : List String :=
  let valid := validOf results
  if valid.isEmpty then []
  else
    let avg := avgOf valid
    let half := max 1 (valid.length / 2)
    keywordRecs ms your avg
      ++ featureBlock (countFeature valid (fun r => r.has_testimonials)) half your
          (fun r => r.has_testimonials) testimonialAddMsg testimonialGenMsg
      ++ featureBlock (countFeature valid (fun r => r.has_faq)) half your
          (fun r => r.has_faq) faqAddMsg faqGenMsg
      ++ featureBlock (countFeature valid (fun r => r.has_gallery)) half your
          (fun r => r.has_gallery) galleryAddMsg galleryGenMsg
      ++ featureBlock (countFeature valid (fun r => r.has_clear_cta)) half your
          (fun r => r.has_clear_cta) ctaAddMsg ctaGenMsg

/-- Lines 243–250: append the generic fallback when nothing was recommended,
then always append the closing suggestion. -/
def buildRecommendations (ms : String) (results : List CompetitorResult)
    (your : Option CompetitorResult) : List String :=
  (if (recsBase ms results your).isEmpty then
      recsBase ms results your ++ [genericFallbackMsg]
    else recsBase ms results your) ++ [closingMsg]

/-- Embedding of `analyze_competitors` (lines 137–256): scan each competitor url in input
order, optionally scan the own site (`if payload.website_url:` — Python
truthiness, so `None` and `""` both skip), then build the recommendations. -/
def analyze_competitors (net : Net) (payload : AnalyzeRequest) : AnalyzeResponse :=
  let main_service_phrase := pyStrip (pyLower payload.main_service)
  let results := payload.competitor_urls.map
    (fun url => scan_site net url main_service_phrase)
  let your_site_result : Option CompetitorResult :=
    match payload.website_url with
    | some u => if u = "" then none else some (scan_site net u main_service_phrase)
    | none => none
  { competitors := results
    your_site := your_site_result
    recommendations := buildRecommendations payload.main_service results your_site_result }

/-- The `OnePageInput` pydantic model (extends `BusinessInfo`). -/
structure OnePageInput where
  business_name : String
  location : String
  industry : String
  main_service : String
  website_url : Option String := none
  target_audience : String
  tone : String
  primary_goal : String
deriving Repr, DecidableEq

/-- The `OnePagePlan` pydantic model. -/
structure OnePagePlan where
  hero_headline : String
  hero_subheadline : String
  primary_cta : String
  secondary_cta : String
  about_bullets : List String
  sections : List String
deriving Repr, DecidableEq

/-- Embedding of `generate_one_page_plan` (lines 277–311): pure template substitution. -/
def generate_one_page_plan (data : OnePageInput) : OnePagePlan :=
  let hero_headline :=
    data.main_service ++ " in " ++ data.location ++ " for " ++ data.target_audience
  let hero_subheadline :=
    data.business_name ++ " provides " ++ pyLower data.industry ++ " services for " ++
      pyLower data.target_audience ++ ", making it easier to " ++
      pyLower data.primary_goal ++ "."
  let about_bullets :=
    ["Locally owned and serving " ++ data.location ++ ".",
     "Focused on " ++ pyLower data.target_audience ++ " who want reliable " ++
       pyLower data.industry ++ " services.",
     "Specializing in " ++ pyLower data.main_service ++ " with a " ++ data.tone ++ " style."]
  let sections :=
    ["Hero section with strong headline, subheadline, and call-to-action buttons.",
     "About section telling your story and why you care about your customers.",
     "Services section highlighting 3–5 main services with benefits.",
     "Testimonials section to build trust.",
     "Simple contact / quote form with phone and email.",
     "Final call-to-action section reminding visitors what to do next."]
  { hero_headline := hero_headline
    hero_subheadline := hero_subheadline
    primary_cta := "Get Your " ++ data.main_service ++ " Today"
    secondary_cta := "Request a Free Quote"
    about_bullets := about_bullets
    sections := sections }

/-- The page of the worked example from the spec. -/
def exSoup : Soup :=
  { titleString := some "Lawn Pros", metaDescContent := none, ogDescContent := none,
    text := "We offer Lawn Mowing and trimming. lawn mowing is our specialty." }

/-- A network oracle on which every fetch succeeds with `exSoup`. -/
def okNet : Net := fun _ => Except.ok exSoup

def reqEmptyW : AnalyzeRequest :=
  { business_name := "B", location := "L", industry := "I", main_service := "S",
    website_url := some "", competitor_urls := [] }

def reqA : AnalyzeRequest :=
  { business_name := "Ghost Stack", location := "Fort Worth, TX",
    industry := "Lawn Care", main_service := "Lawn Mowing",
    website_url := none, competitor_urls := ["http://c1", "http://c2"] }

/- Shorthands for the aggregates `analyze_competitors` computes. -/

def analyzeValid (net : Net) (p : AnalyzeRequest) : List CompetitorResult :=
  validOf (analyze_competitors net p).competitors

def analyzeAvg (net : Net) (p : AnalyzeRequest) : ℚ := avgOf (analyzeValid net p)

def analyzeHalf (net : Net) (p : AnalyzeRequest) : ℕ :=
  max 1 ((analyzeValid net p).length / 2)

def analyzeYour (net : Net) (p : AnalyzeRequest) : Option CompetitorResult :=
  (analyze_competitors net p).your_site

def analyzeBlock (net : Net) (p : AnalyzeRequest) (has : CompetitorResult → Bool)
    (a g : String) : List String :=
  featureBlock (countFeature (analyzeValid net p) has) (analyzeHalf net p)
    (analyzeYour net p) has a g

/- The worked scenario from the spec: two valid competitors with 4 and 6 mentions,
both with testimonials; the own site scans successfully with 1 mention and
no testimonials. -/

def soupC1 : Soup :=
  { titleString := some "Competitor One", metaDescContent := none,
    ogDescContent := none,
    text := "lawn mowing lawn mowing lawn mowing lawn mowing testimonials" }

def soupC2 : Soup :=
  { titleString := some "Competitor Two", metaDescContent := none,
    ogDescContent := none,
    text := "lawn mowing lawn mowing lawn mowing lawn mowing lawn mowing lawn mowing testimonials" }

def soupOwn : Soup :=
  { titleString := some "My Site", metaDescContent := none, ogDescContent := none,
    text := "lawn mowing here" }

def scenNet : Net := fun u =>
  if u = "http://c1" then Except.ok soupC1
  else if u = "http://c2" then Except.ok soupC2
  else if u = "http://own" then Except.ok soupOwn
  else Except.error "404"

def reqS : AnalyzeRequest :=
  { business_name := "Ghost Stack", location := "Fort Worth, TX",
    industry := "Lawn Care", main_service := "lawn mowing",
    website_url := some "http://own",
    competitor_urls := ["http://c1", "http://c2"] }

def planInput1 : OnePageInput :=
  { business_name := "Ghost Stack", location := "Fort Worth, TX",
    industry := "Lawn Care", main_service := "Lawn Mowing", website_url := none,
    target_audience := "Busy Homeowners", tone := "friendly",
    primary_goal := "Get More Calls" }

def planInput2 : OnePageInput :=
  { planInput1 with website_url := some "https://ghoststackdesigns.com" }

/-- C1: on any fetch/parse error `scan_site` returns the failure-variant
result: `url` is the input url, `error` is the exception message, and every
other field keeps its default (`none` / `false` / `0`).  Being a total Lean
function, it returns a result on every input — no exception escapes. -/
theorem scan_site_error_defaults (net : Net) (url phrase e : String)
    (h : net url = Except.error e) :
    scan_site net url phrase =
      { url := url, title := none, meta_description := none,
        has_testimonials := false, has_gallery := false, has_faq := false,
        has_clear_cta := false, service_mentions := 0, error := some e } := by
  unfold scan_site
  rw [h]

theorem scan_site_error_defaults_witness :
    errNet "http://example.com" = Except.error "timeout" ∧
    scan_site errNet "http://example.com" "lawn mowing" =
      { url := "http://example.com", title := none, meta_description := none,
        has_testimonials := false, has_gallery := false, has_faq := false,
        has_clear_cta := false, service_mentions := 0, error := some "timeout" } :=
  ⟨rfl, scan_site_error_defaults errNet "http://example.com" "lawn mowing" "timeout" rfl⟩

/-- C2: on a successful scan the mention count is the non-overlapping count of
the lower-cased, trimmed target phrase (exactly the phrase
`analyze_competitors` passes in) within the lower-cased page text, and an
empty phrase yields 0 without any search. -/
theorem scan_site_mentions (net : Net) (url p : String) (soup : Soup)
    (h : net url = Except.ok soup) :
    (scan_site net url (pyStrip (pyLower p))).service_mentions =
      (if pyStrip (pyLower p) = "" then 0
       else pyCount (pyLower soup.text) (pyStrip (pyLower p))) := by
  unfold scan_site
  rw [h]

theorem scan_site_mentions_witness :
    (scan_site okNet "http://a" (pyStrip (pyLower "Lawn Mowing"))).service_mentions = 2 := by
  rw [scan_site_mentions okNet "http://a" "Lawn Mowing" exSoup rfl]
  decide

/-- The `url` field of a scan result always equals the scanned url, on both
the success and the failure branch. -/
theorem scan_site_url_eq (net : Net) (url phrase : String) :
    (scan_site net url phrase).url = url := by
  unfold scan_site
  cases net url <;> rfl

theorem map_scan_url_getElem (net : Net) (phrase : String) (urls : List String)
    (i : ℕ) :
    ((urls.map (fun u => scan_site net u phrase))[i]?).map (fun r => r.url) =
      urls[i]? := by
  rw [List.getElem?_map]
  cases urls[i]? with
  | none => rfl
  | some u => simp [scan_site_url_eq]

/-- C4: the competitors list has one scan result per input url, in input
order (the url of the i-th result is the i-th input url), and it never depends on
the (own-site) `website_url` field — the own-site result is kept separately. -/
theorem analyze_competitors_order (net : Net) (p : AnalyzeRequest) :
    (analyze_competitors net p).competitors =
      p.competitor_urls.map
        (fun u => scan_site net u (pyStrip (pyLower p.main_service))) ∧
    (analyze_competitors net p).competitors.length = p.competitor_urls.length ∧
    (∀ i : ℕ, (((analyze_competitors net p).competitors[i]?).map (fun r => r.url)) =
      p.competitor_urls[i]?) ∧
    (∀ w, (analyze_competitors net { p with website_url := w }).competitors =
        (analyze_competitors net p).competitors) := by
  refine ⟨rfl, by simp [analyze_competitors], ?_, fun w => rfl⟩
  intro i
  exact map_scan_url_getElem net (pyStrip (pyLower p.main_service)) p.competitor_urls i

/-- C10: a present-but-empty `website_url` behaves exactly like an absent one
(Python truthiness of `if payload.website_url:`): the whole response is the
one computed with `website_url = None`, and `your_site` is `null`. -/
theorem analyze_empty_website_url (net : Net) (p : AnalyzeRequest)
    (h : p.website_url = some "") :
    analyze_competitors net p =
      analyze_competitors net { p with website_url := none } ∧
    (analyze_competitors net p).your_site = none := by
  unfold analyze_competitors
  rw [h]
  exact ⟨rfl, rfl⟩

theorem analyze_empty_website_url_witness :
    (analyze_competitors errNet reqEmptyW).your_site = none :=
  (analyze_empty_website_url errNet reqEmptyW rfl).2

theorem buildRecs_of_base_empty (ms : String) (rs : List CompetitorResult)
    (y : Option CompetitorResult) (h : recsBase ms rs y = []) :
    buildRecommendations ms rs y = [genericFallbackMsg, closingMsg] := by
  simp [buildRecommendations, h]

theorem recsBase_of_no_valid (ms : String) (rs : List CompetitorResult)
    (y : Option CompetitorResult) (h : validOf rs = []) : recsBase ms rs y = [] := by
  simp [recsBase, h]

theorem validOf_eq_nil (rs : List CompetitorResult)
    (h : ∀ r ∈ rs, r.error.isSome) : validOf rs = [] := by
  unfold validOf
  rw [List.filter_eq_nil_iff]
  intro a ha
  have hs := h a ha
  cases he : a.error with
  | none => rw [he] at hs; simp at hs
  | some e => simp

/-- C3: whenever the pre-fallback recommendation list is empty — in
particular whenever there are zero valid (error-free) competitor results,
which includes the empty `competitor_urls` list — the recommendations are
exactly the generic fallback followed by the closing suggestion; no average
enters the output. -/
theorem analyze_generic_fallback (net : Net) (p : AnalyzeRequest) :
    (∀ ms rs y, recsBase ms rs y = [] →
        buildRecommendations ms rs y = [genericFallbackMsg, closingMsg]) ∧
    ((∀ r ∈ (analyze_competitors net p).competitors, r.error.isSome) →
      recsBase p.main_service (analyze_competitors net p).competitors
          (analyze_competitors net p).your_site = [] ∧
      (analyze_competitors net p).recommendations =
        [genericFallbackMsg, closingMsg]) := by
  refine ⟨buildRecs_of_base_empty, ?_⟩
  intro h
  have hb : recsBase p.main_service (analyze_competitors net p).competitors
      (analyze_competitors net p).your_site = [] :=
    recsBase_of_no_valid _ _ _ (validOf_eq_nil _ h)
  exact ⟨hb, buildRecs_of_base_empty _ _ _ hb⟩

theorem analyze_generic_fallback_witness :
    (analyze_competitors errNet reqA).recommendations =
      [genericFallbackMsg, closingMsg] :=
  ((analyze_generic_fallback errNet reqA).2 (by decide)).2

/- Bridging lemmas between the exact rational average and decidable
natural-number facts. -/

theorem lt_avgOf_iff (m : ℕ) (valid : List CompetitorResult) :
    ((m : ℚ) < avgOf valid) ↔
      m * max valid.length 1 < (valid.map (fun r => r.service_mentions)).sum := by
  have h1 : 0 < max valid.length 1 := by omega
  have hD : (0:ℚ) < ((max valid.length 1 : ℕ) : ℚ) := by exact_mod_cast h1
  unfold avgOf
  rw [lt_div_iff₀ hD]
  constructor
  · intro h; exact_mod_cast h
  · intro h; exact_mod_cast h

theorem avgOf_pos_iff (valid : List CompetitorResult) :
    (0 < avgOf valid) ↔ 0 < (valid.map (fun r => r.service_mentions)).sum := by
  have h := lt_avgOf_iff 0 valid
  simpa using h

/- Distinctness of the recommendation strings from the closing suggestion:
every other message starts with a character other than `A`. -/

theorem data_append (s t : String) : (s ++ t).data = s.data ++ t.data := rfl

theorem head_append_of_head (p s : String) (c : Char) (h : p.data.head? = some c) :
    (p ++ s).data.head? = some c := by
  rw [data_append]
  cases hp : p.data with
  | nil => rw [hp] at h; exact absurd h (by simp)
  | cons a as =>
    rw [hp] at h
    simp at h
    simp [h]

theorem closingMsg_head : closingMsg.data.head? = some 'A' := rfl

theorem belowAvgMsg_head (ms : String) (n : ℤ) :
    (belowAvgMsg ms n).data.head? = some 'Y' := by
  unfold belowAvgMsg
  exact head_append_of_head _ _ _ rfl

theorem onParMsg_head (ms : String) : (onParMsg ms).data.head? = some 'Y' := by
  unfold onParMsg
  exact head_append_of_head _ _ _ rfl

theorem usePhraseMsg_head (ms : String) (n : ℤ) :
    (usePhraseMsg ms n).data.head? = some 'U' := by
  unfold usePhraseMsg
  exact head_append_of_head _ _ _ rfl

theorem belowAvgMsg_ne_closing (ms : String) (n : ℤ) :
    belowAvgMsg ms n ≠ closingMsg := by
  intro he
  have h1 := belowAvgMsg_head ms n
  rw [he, closingMsg_head] at h1
  exact absurd h1 (by decide)

theorem onParMsg_ne_closing (ms : String) : onParMsg ms ≠ closingMsg := by
  intro he
  have h1 := onParMsg_head ms
  rw [he, closingMsg_head] at h1
  exact absurd h1 (by decide)

theorem usePhraseMsg_ne_closing (ms : String) (n : ℤ) :
    usePhraseMsg ms n ≠ closingMsg := by
  intro he
  have h1 := usePhraseMsg_head ms n
  rw [he, closingMsg_head] at h1
  exact absurd h1 (by decide)

/- Which strings can occur in each part of the recommendation list. -/

theorem mem_keywordRecs (s ms : String) (y : Option CompetitorResult) (avg : ℚ)
    (h : s ∈ keywordRecs ms y avg) :
    (∃ n, s = belowAvgMsg ms n) ∨ s = onParMsg ms ∨ (∃ n, s = usePhraseMsg ms n) := by
  unfold keywordRecs at h
  by_cases h0 : 0 < avg
  · rw [if_pos h0] at h
    cases y with
    | none =>
      simp at h
      exact Or.inr (Or.inr ⟨recN avg, h⟩)
    | some r =>
      by_cases he : r.error.isNone
      · by_cases hlt : (r.service_mentions : ℚ) < avg
        · simp [he, hlt] at h
          exact Or.inl ⟨recN avg, h⟩
        · simp [he, hlt] at h
          exact Or.inr (Or.inl h)
      · simp [he] at h
        exact Or.inr (Or.inr ⟨recN avg, h⟩)
  · rw [if_neg h0] at h
    simp at h

theorem mem_featureBlock (s : String) (cnt half : ℕ) (y : Option CompetitorResult)
    (has : CompetitorResult → Bool) (a g : String)
    (h : s ∈ featureBlock cnt half y has a g) : s = a ∨ s = g := by
  unfold featureBlock at h
  by_cases h1 : half ≤ cnt
  · rw [if_pos h1] at h
    by_cases h2 : ownLacks y has = true
    · rw [if_pos h2] at h; simp at h; exact Or.inl h
    · rw [if_neg h2] at h; simp at h; exact Or.inr h
  · rw [if_neg h1] at h; simp at h

theorem mem_recsBase (s ms : String) (rs : List CompetitorResult)
    (y : Option CompetitorResult) (h : s ∈ recsBase ms rs y) :
    (∃ n, s = belowAvgMsg ms n) ∨ s = onParMsg ms ∨ (∃ n, s = usePhraseMsg ms n) ∨
      s = testimonialAddMsg ∨ s = testimonialGenMsg ∨ s = faqAddMsg ∨ s = faqGenMsg ∨
      s = galleryAddMsg ∨ s = galleryGenMsg ∨ s = ctaAddMsg ∨ s = ctaGenMsg := by
  simp only [recsBase] at h
  by_cases hv : (validOf rs).isEmpty
  · rw [if_pos hv] at h; simp at h
  · rw [if_neg hv] at h
    simp only [List.mem_append] at h
    rcases h with ((((hk | h1) | h2) | h3) | h4)
    · rcases mem_keywordRecs s ms y _ hk with h' | h' | h' <;> tauto
    · rcases mem_featureBlock s _ _ _ _ _ _ h1 with rfl | rfl <;> tauto
    · rcases mem_featureBlock s _ _ _ _ _ _ h2 with rfl | rfl <;> tauto
    · rcases mem_featureBlock s _ _ _ _ _ _ h3 with rfl | rfl <;> tauto
    · rcases mem_featureBlock s _ _ _ _ _ _ h4 with rfl | rfl <;> tauto

theorem mem_recsBase_ne_closing (s ms : String) (rs : List CompetitorResult)
    (y : Option CompetitorResult) (h : s ∈ recsBase ms rs y) : s ≠ closingMsg := by
  rcases mem_recsBase s ms rs y h with
    ⟨n, rfl⟩ | rfl | ⟨n, rfl⟩ | rfl | rfl | rfl | rfl | rfl | rfl | rfl | rfl
  · exact belowAvgMsg_ne_closing ms n
  · exact onParMsg_ne_closing ms
  · exact usePhraseMsg_ne_closing ms n
  · decide
  · decide
  · decide
  · decide
  · decide
  · decide
  · decide
  · decide

/- Decomposition of the final recommendation list. -/

theorem buildRecs_decomp (ms : String) (rs : List CompetitorResult)
    (y : Option CompetitorResult) :
    ∃ tail, buildRecommendations ms rs y = recsBase ms rs y ++ tail ∧
      (tail = [closingMsg] ∨
        (recsBase ms rs y = [] ∧ tail = [genericFallbackMsg, closingMsg])) := by
  unfold buildRecommendations
  by_cases hb : (recsBase ms rs y).isEmpty
  · have hnil : recsBase ms rs y = [] := List.isEmpty_iff.mp hb
    exact ⟨[genericFallbackMsg, closingMsg], by rw [if_pos hb, hnil]; rfl,
      Or.inr ⟨hnil, rfl⟩⟩
  · exact ⟨[closingMsg], by rw [if_neg hb], Or.inl rfl⟩

theorem buildRecs_front (ms : String) (rs : List CompetitorResult)
    (y : Option CompetitorResult) :
    ∃ front, buildRecommendations ms rs y = front ++ [closingMsg] ∧
      (∀ s ∈ front, s ≠ closingMsg) := by
  by_cases hb : (recsBase ms rs y).isEmpty
  · refine ⟨recsBase ms rs y ++ [genericFallbackMsg], ?_, ?_⟩
    · unfold buildRecommendations
      rw [if_pos hb]
    · intro s hs
      rcases List.mem_append.mp hs with hs | hs
      · exact mem_recsBase_ne_closing s ms rs y hs
      · have hg : s = genericFallbackMsg := by simpa using hs
        subst hg
        decide
  · refine ⟨recsBase ms rs y, ?_, ?_⟩
    · unfold buildRecommendations
      rw [if_neg hb]
    · intro s hs
      exact mem_recsBase_ne_closing s ms rs y hs

/-- C7: every recommendations list produced by `analyze_competitors` ends
with the closing one-page-layout suggestion: it is the last element, it
occurs exactly once, and it is present on every branch, so the list is never
empty. -/
theorem analyze_closing_suggestion (net : Net) (p : AnalyzeRequest) :
    (analyze_competitors net p).recommendations ≠ [] ∧
    (analyze_competitors net p).recommendations.getLast? = some closingMsg ∧
    (analyze_competitors net p).recommendations.count closingMsg = 1 := by
  obtain ⟨front, hf, hne⟩ := buildRecs_front p.main_service
    (analyze_competitors net p).competitors (analyze_competitors net p).your_site
  have hrec : (analyze_competitors net p).recommendations =
      front ++ [closingMsg] := hf
  refine ⟨?_, ?_, ?_⟩
  · rw [hrec]; simp
  · rw [hrec]; exact List.getLast?_concat front
  · rw [hrec, List.count_append]
    have h0 : front.count closingMsg = 0 :=
      List.count_eq_zero.mpr (fun hmem => hne closingMsg hmem rfl)
    rw [h0]
    simp

theorem recsBase_of_valid (ms : String) (rs : List CompetitorResult)
    (y : Option CompetitorResult) (h : (validOf rs).isEmpty = false) :
    recsBase ms rs y =
      keywordRecs ms y (avgOf (validOf rs))
        ++ featureBlock (countFeature (validOf rs) (fun r => r.has_testimonials))
            (max 1 ((validOf rs).length / 2)) y (fun r => r.has_testimonials)
            testimonialAddMsg testimonialGenMsg
        ++ featureBlock (countFeature (validOf rs) (fun r => r.has_faq))
            (max 1 ((validOf rs).length / 2)) y (fun r => r.has_faq)
            faqAddMsg faqGenMsg
        ++ featureBlock (countFeature (validOf rs) (fun r => r.has_gallery))
            (max 1 ((validOf rs).length / 2)) y (fun r => r.has_gallery)
            galleryAddMsg galleryGenMsg
        ++ featureBlock (countFeature (validOf rs) (fun r => r.has_clear_cta))
            (max 1 ((validOf rs).length / 2)) y (fun r => r.has_clear_cta)
            ctaAddMsg ctaGenMsg := by
  simp [recsBase, h]

theorem analyze_recs_decomp (net : Net) (p : AnalyzeRequest)
    (h : analyzeValid net p ≠ []) :
    ∃ tail, (analyze_competitors net p).recommendations =
      keywordRecs p.main_service (analyzeYour net p) (analyzeAvg net p)
        ++ (analyzeBlock net p (fun r => r.has_testimonials)
              testimonialAddMsg testimonialGenMsg
        ++ (analyzeBlock net p (fun r => r.has_faq) faqAddMsg faqGenMsg
        ++ (analyzeBlock net p (fun r => r.has_gallery) galleryAddMsg galleryGenMsg
        ++ (analyzeBlock net p (fun r => r.has_clear_cta) ctaAddMsg ctaGenMsg
              ++ tail)))) := by
  have hb : (validOf (analyze_competitors net p).competitors).isEmpty = false := by
    cases hv : (validOf (analyze_competitors net p).competitors).isEmpty
    · rfl
    · exact absurd (List.isEmpty_iff.mp hv) h
  obtain ⟨tail, htail, _⟩ := buildRecs_decomp p.main_service
    (analyze_competitors net p).competitors (analyzeYour net p)
  refine ⟨tail, ?_⟩
  have hrec : (analyze_competitors net p).recommendations =
      recsBase p.main_service (analyze_competitors net p).competitors
        (analyzeYour net p) ++ tail := htail
  rw [hrec, recsBase_of_valid _ _ _ hb]
  simp only [analyzeBlock, analyzeAvg, analyzeValid, analyzeHalf, analyzeYour,
    List.append_assoc]

/-- C5: with at least one valid competitor the keyword-usage block comes
first in the recommendation list; when the average mention count is
positive it holds exactly one message — "below average, aim for N" when the
successfully scanned own site mentions the phrase less than the average,
"on par" when it does not, and the generic "use the phrase at least N
times" when the own site is absent or its scan failed — with
N = max(3, round(avg)); when the average is 0 the keyword block is empty. -/
theorem analyze_keyword_recommendation (net : Net) (p : AnalyzeRequest) :
    ((analyzeValid net p ≠ []) → ∃ rest,
      (analyze_competitors net p).recommendations =
        keywordRecs p.main_service (analyzeYour net p) (analyzeAvg net p) ++ rest) ∧
    (∀ ms y avg, 0 < avg → ∀ r, y = some r → r.error = none →
      (((r.service_mentions : ℚ) < avg →
        keywordRecs ms y avg = [belowAvgMsg ms (max 3 (pyRound avg))]) ∧
      (¬ ((r.service_mentions : ℚ) < avg) →
        keywordRecs ms y avg = [onParMsg ms]))) ∧
    (∀ ms y avg, 0 < avg → ownOk y = false →
      keywordRecs ms y avg = [usePhraseMsg ms (max 3 (pyRound avg))]) ∧
    (∀ ms y avg, avg = 0 → keywordRecs ms y avg = []) := by
  refine ⟨?_, ?_, ?_, ?_⟩
  · intro h
    obtain ⟨tail, htail⟩ := analyze_recs_decomp net p h
    exact ⟨_, htail⟩
  · intro ms y avg h0 r hy he
    subst hy
    constructor
    · intro hlt
      simp [keywordRecs, recN, h0, he, hlt]
    · intro hge
      simp [keywordRecs, recN, h0, he, hge]
  · intro ms y avg h0 hok
    cases y with
    | none => simp [keywordRecs, recN, h0]
    | some r =>
      have he : r.error.isNone = false := by simpa [ownOk] using hok
      simp [keywordRecs, recN, h0, he]
  · intro ms y avg h0
    simp [keywordRecs, h0]

/-- C6: with ≥1 valid competitors and threshold
`halfOrMore = max(1, validCount // 2)`, each feature whose prevalence count
reaches the threshold contributes exactly one recommendation, in the fixed
order keyword usage, testimonials, FAQ, gallery, CTA; the add-it variant
(competitors have it, you do not) is chosen exactly when the own site was scanned
successfully and lacks the feature, the softer generic variant otherwise;
a feature below the threshold contributes nothing. -/
theorem analyze_feature_recommendations (net : Net) (p : AnalyzeRequest) :
    ((analyzeValid net p ≠ []) → ∃ tail,
      (analyze_competitors net p).recommendations =
        keywordRecs p.main_service (analyzeYour net p) (analyzeAvg net p)
          ++ (analyzeBlock net p (fun r => r.has_testimonials)
                testimonialAddMsg testimonialGenMsg
          ++ (analyzeBlock net p (fun r => r.has_faq) faqAddMsg faqGenMsg
          ++ (analyzeBlock net p (fun r => r.has_gallery) galleryAddMsg galleryGenMsg
          ++ (analyzeBlock net p (fun r => r.has_clear_cta) ctaAddMsg ctaGenMsg
                ++ tail))))) ∧
    (∀ cnt half y has a g, half ≤ cnt → ownLacks y has = true →
      featureBlock cnt half y has a g = [a]) ∧
    (∀ cnt half y has a g, half ≤ cnt → ownLacks y has = false →
      featureBlock cnt half y has a g = [g]) ∧
    (∀ cnt half y has a g, cnt < half → featureBlock cnt half y has a g = []) ∧
    (∀ y has, ownLacks y has = true ↔
      ∃ r, y = some r ∧ r.error = none ∧ has r = false) := by
  refine ⟨analyze_recs_decomp net p, ?_, ?_, ?_, ?_⟩
  · intro cnt half y has a g h1 h2
    simp [featureBlock, h1, h2]
  · intro cnt half y has a g h1 h2
    simp [featureBlock, h1, h2]
  · intro cnt half y has a g h1
    have h2 : ¬ (half ≤ cnt) := by omega
    simp [featureBlock, h2]
  · intro y has
    cases y with
    | none => simp [ownLacks]
    | some r =>
      simp only [ownLacks, Bool.and_eq_true, Bool.not_eq_eq_eq_not, Bool.not_true,
        Option.isNone_iff_eq_none, Option.some.injEq]
      constructor
      · intro ⟨h1, h2⟩
        exact ⟨r, rfl, h1, h2⟩
      · intro ⟨r2, hr2, h1, h2⟩
        cases hr2
        exact ⟨h1, h2⟩

theorem analyze_keyword_recommendation_witness :
    (analyze_competitors scenNet reqS).recommendations.head? =
      some (belowAvgMsg reqS.main_service
        (max 3 (pyRound (analyzeAvg scenNet reqS)))) := by
  obtain ⟨rest, hr⟩ := (analyze_keyword_recommendation scenNet reqS).1 (by decide)
  have hk := ((analyze_keyword_recommendation scenNet reqS).2.1 reqS.main_service
      (analyzeYour scenNet reqS) (analyzeAvg scenNet reqS)
      ((avgOf_pos_iff (analyzeValid scenNet reqS)).mpr (by decide))
      (scan_site scenNet "http://own" (pyStrip (pyLower reqS.main_service)))
      (by decide) (by decide)).1
    ((lt_avgOf_iff
      (scan_site scenNet "http://own"
        (pyStrip (pyLower reqS.main_service))).service_mentions
      (analyzeValid scenNet reqS)).mpr (by decide))
  rw [hr, hk]
  rfl

theorem analyze_feature_recommendations_witness :
    analyzeBlock scenNet reqS (fun r => r.has_testimonials)
      testimonialAddMsg testimonialGenMsg = [testimonialAddMsg] :=
  (analyze_feature_recommendations scenNet reqS).2.1
    (countFeature (analyzeValid scenNet reqS) (fun r => r.has_testimonials))
    (analyzeHalf scenNet reqS) (analyzeYour scenNet reqS)
    (fun r => r.has_testimonials) testimonialAddMsg testimonialGenMsg
    (by decide) (by decide)

/-- C8: the plan generator is pure — equal profile/audience/tone/goal fields
(website_url free) give identical output — and always returns exactly 3
about-bullets, the fixed 6-item section list, the literal secondary CTA
"Request a Free Quote", a headline using `main_service` and `location`
verbatim, and a subheadline/bullets embedding industry, target audience and
goal lower-cased. -/
theorem generate_one_page_plan_spec :
    (∀ d1 d2 : OnePageInput, d1.business_name = d2.business_name →
      d1.location = d2.location → d1.industry = d2.industry →
      d1.main_service = d2.main_service →
      d1.target_audience = d2.target_audience → d1.tone = d2.tone →
      d1.primary_goal = d2.primary_goal →
      generate_one_page_plan d1 = generate_one_page_plan d2) ∧
    (∀ d : OnePageInput,
      (generate_one_page_plan d).about_bullets.length = 3 ∧
      (generate_one_page_plan d).sections.length = 6 ∧
      (generate_one_page_plan d).sections =
        ["Hero section with strong headline, subheadline, and call-to-action buttons.",
         "About section telling your story and why you care about your customers.",
         "Services section highlighting 3–5 main services with benefits.",
         "Testimonials section to build trust.",
         "Simple contact / quote form with phone and email.",
         "Final call-to-action section reminding visitors what to do next."] ∧
      (generate_one_page_plan d).secondary_cta = "Request a Free Quote" ∧
      (generate_one_page_plan d).hero_headline =
        d.main_service ++ " in " ++ d.location ++ " for " ++ d.target_audience ∧
      (generate_one_page_plan d).hero_subheadline =
        d.business_name ++ " provides " ++ pyLower d.industry ++ " services for " ++
          pyLower d.target_audience ++ ", making it easier to " ++
          pyLower d.primary_goal ++ "." ∧
      (generate_one_page_plan d).about_bullets =
        ["Locally owned and serving " ++ d.location ++ ".",
         "Focused on " ++ pyLower d.target_audience ++ " who want reliable " ++
           pyLower d.industry ++ " services.",
         "Specializing in " ++ pyLower d.main_service ++ " with a " ++
           d.tone ++ " style."]) := by
  constructor
  · intro d1 d2 h1 h2 h3 h4 h5 h6 h7
    unfold generate_one_page_plan
    rw [h1, h2, h3, h4, h5, h6, h7]
  · intro d
    exact ⟨rfl, rfl, rfl, rfl, rfl, rfl, rfl⟩

theorem generate_one_page_plan_spec_witness :
    generate_one_page_plan planInput1 = generate_one_page_plan planInput2 ∧
    (generate_one_page_plan planInput1).about_bullets.length = 3 :=
  ⟨generate_one_page_plan_spec.1 planInput1 planInput2 rfl rfl rfl rfl rfl rfl rfl,
   (generate_one_page_plan_spec.2 planInput1).1⟩
